import Mathlib

/-!
Verification of the real-estate dialogue agent's deterministic tool layer.

Each definition below is a shallow embedding of a function from the
repository's Python sources (file and function named in the doc comment).
Python strings are modelled as `List Char` (ASCII lowercasing via
`Char.toLower`, which agrees with `str.lower` on the ASCII inputs used
here), Python `float` prices/fees as `ℚ`, Python `int` as `ℤ` or `ℕ` as
appropriate, and `Optional[T]` as `Option T`.  Python truthiness of
optional values (`if x:`) is modelled explicitly where the source relies
on it.
-/

/-- Python `str.lower` on a single character (ASCII). -/
def pyLower (c : Char) : Char := c.toLower

/-- Python `s.lower()` as a list of characters. -/
def lowerStr (s : String) : List Char := s.toList.map pyLower

/-- Does the haystack start with the needle (both as character lists)? -/
def listStartsWith : List Char → List Char → Bool
  | _, [] => true
  | [], _ :: _ => false
  | c :: cs, d :: ds => c == d && listStartsWith cs ds

/-- Python substring test `needle in hay` (first argument is the haystack). -/
def containsSub : List Char → List Char → Bool
  | [], needle => needle.isEmpty
  | c :: cs, needle => listStartsWith (c :: cs) needle || containsSub cs needle

/-- Number of (possibly overlapping) occurrence positions of the needle in
the haystack; used by the specification's reference definition of the
intent classifier. -/
def occCount : List Char → List Char → Nat
  | [], needle => if needle.isEmpty then 1 else 0
  | c :: cs, needle => (if listStartsWith (c :: cs) needle then 1 else 0) + occCount cs needle

/-! ## Intent classification tool
Source: src/core/tools/intent_classification_tool.py -/

/-- The intent labels of `IntentType` in the source. -/
inductive IntentType where
  | buy
  | sell
  | rent
  | general_info
  | unknown
deriving DecidableEq, Repr

/-- String value of an intent label (the Python enum value). -/
def IntentType.value : IntentType → String
  | .buy => "buy"
  | .sell => "sell"
  | .rent => "rent"
  | .general_info => "general_info"
  | .unknown => "unknown"

/-- Result record of `classify_user_intent`. -/
structure IntentClassification where
  intent : IntentType
  confidence : ℚ
  reasoning : String
deriving DecidableEq, Repr

/-- The `buy_keywords` list from the source. -/
def buy_keywords : List String :=
  ["buy", "purchase", "looking for", "need", "want", "searching for",
   "find me", "show me", "i want", "i need", "looking to buy",
   "interested in", "considering", "planning to buy"]

/-- The `sell_keywords` list from the source. -/
def sell_keywords : List String :=
  ["sell", "selling", "put on market", "list", "advertise",
   "get rid of", "dispose of", "unload", "offload"]

/-- The `rent_keywords` list from the source. -/
def rent_keywords : List String :=
  ["rent", "rental", "lease", "renting", "temporary",
   "short term", "monthly", "rent out"]

/-- The `info_keywords` list from the source. -/
def info_keywords : List String :=
  ["tell me about", "explain", "how does", "what is", "information",
   "help me understand", "guide me", "advice", "tips"]

/-- The source's score: `sum(1 for keyword in keywords if keyword in message_lower)`,
i.e. each keyword contributes 1 when it occurs at least once (presence count). -/
def keywordScore (msg : List Char) (kws : List String) : Nat :=
  kws.countP (fun k => containsSub msg k.toList)

/-- The specification's score: each keyword counted once per occurrence. -/
def keywordOccurrenceScore (msg : List Char) (kws : List String) : Nat :=
  (kws.map (fun k => occCount msg k.toList)).sum

/-- Python `max(scores, key=scores.get)` over the dict with insertion order
buy, sell, rent, general_info: iterates in order and keeps the current
maximum unless a later entry is strictly greater, so the first label wins
ties.  Unrolling the four-step iteration gives this decision tree; the
accumulator after the buy entry is `(buy, b)`, after the sell entry it is
`(sell, s)` exactly when `s > b`, and so on.  Returns the chosen label
with its score. -/
def pickMaxIntent (b s r i : Nat) : IntentType × Nat :=
  if s > b then
    if r > s then
      if i > r then (IntentType.general_info, i) else (IntentType.rent, r)
    else
      if i > s then (IntentType.general_info, i) else (IntentType.sell, s)
  else
    if r > b then
      if i > r then (IntentType.general_info, i) else (IntentType.rent, r)
    else
      if i > b then (IntentType.general_info, i) else (IntentType.buy, b)

/-- Embedding of `classify_user_intent` from
src/core/tools/intent_classification_tool.py. -/
def classify_user_intent (user_message : String) : IntentClassification :=
  let message_lower := lowerStr user_message
  let buy_score := keywordScore message_lower buy_keywords
  let sell_score := keywordScore message_lower sell_keywords
  let rent_score := keywordScore message_lower rent_keywords
  let info_score := keywordScore message_lower info_keywords
  let picked := pickMaxIntent buy_score sell_score rent_score info_score
  let max_intent := picked.1
  let max_score := picked.2
  let total_keywords := buy_score + sell_score + rent_score + info_score
  let confidence : ℚ := (max_score : ℚ) / ((max total_keywords 1 : Nat) : ℚ)
  if max_score == 0 then
    { intent := IntentType.unknown, confidence := 0,
      reasoning := "No clear intent keywords found in the message" }
  else
    { intent := max_intent, confidence := confidence,
      reasoning := "Detected " ++ toString max_score ++ " " ++ max_intent.value
        ++ "-related keywords in the message" }

/-- Intent and confidence only; the specification prescribes no reasoning
text, so the reference definitions produce just these two fields. -/
structure IntentOutcome where
  intent : IntentType
  confidence : ℚ
deriving DecidableEq, Repr

/-- Reference definition following the specification's words literally:
count substring occurrences of each keyword (once per occurrence), pick
the label with the maximum count with ties broken in the order
buy, sell, rent, general_info, confidence = max-count / sum of counts,
and unknown with confidence 0 when all counts are 0. -/
def classify_intent_spec_occurrence (user_message : String) : IntentOutcome :=
  let msg := lowerStr user_message
  let b := keywordOccurrenceScore msg buy_keywords
  let s := keywordOccurrenceScore msg sell_keywords
  let r := keywordOccurrenceScore msg rent_keywords
  let i := keywordOccurrenceScore msg info_keywords
  let m := max (max b s) (max r i)
  if m = 0 then { intent := IntentType.unknown, confidence := 0 }
  else
    { intent :=
        if b = m then IntentType.buy
        else if s = m then IntentType.sell
        else if r = m then IntentType.rent
        else IntentType.general_info,
      confidence := (m : ℚ) / ((b + s + r + i : Nat) : ℚ) }

/-- The specification's reference definition amended to count each keyword
once per message when present at least once (presence counting), which is
what the source computes. -/
def classify_intent_spec_presence (user_message : String) : IntentOutcome :=
  let msg := lowerStr user_message
  let b := keywordScore msg buy_keywords
  let s := keywordScore msg sell_keywords
  let r := keywordScore msg rent_keywords
  let i := keywordScore msg info_keywords
  let m := max (max b s) (max r i)
  if m = 0 then { intent := IntentType.unknown, confidence := 0 }
  else
    { intent :=
        if b = m then IntentType.buy
        else if s = m then IntentType.sell
        else if r = m then IntentType.rent
        else IntentType.general_info,
      confidence := (m : ℚ) / ((b + s + r + i : Nat) : ℚ) }

/-- The fold implementing Python max picks the priority-ordered argmax. -/
lemma pickMaxIntent_eq (b s r i : Nat) :
    pickMaxIntent b s r i =
      (if b = max (max b s) (max r i) then IntentType.buy
       else if s = max (max b s) (max r i) then IntentType.sell
       else if r = max (max b s) (max r i) then IntentType.rent
       else IntentType.general_info,
       max (max b s) (max r i)) := by
  unfold pickMaxIntent
  split_ifs <;>
    first
      | (rw [Prod.mk.injEq]; exact ⟨rfl, by omega⟩)
      | (exfalso; omega)

/-- C3: the implemented classifier scores keywords by presence (at most one
per keyword), not once per occurrence as the specification's reference
definition says; on the input "buy rent rent" the source yields intent
buy (presence scores tie at 1 and the priority order favours buy) while
the occurrence-counting reference yields intent rent (score 2 beats 1), so
`classify_user_intent` does not equal the reference definition. -/
theorem classify_user_intent_ne_occurrence_spec :
    (classify_user_intent "buy rent rent").intent = IntentType.buy ∧
    (classify_intent_spec_occurrence "buy rent rent").intent = IntentType.rent := by
  constructor <;> decide

/-- C3 (amended): `classify_user_intent` computes exactly the
specification's reference definition with occurrence counting replaced by
presence counting; its scores tie-break in the order buy, sell, rent,
general_info, its confidence is max-score over total score (0, with intent
unknown, when every score is 0); and the two concrete examples hold:
"I want to buy a house" classifies as buy with positive confidence and
"xyz" classifies as unknown with confidence 0. -/
theorem classify_user_intent_matches_presence_spec :
    (∀ m : String,
      (classify_user_intent m).intent = (classify_intent_spec_presence m).intent ∧
      (classify_user_intent m).confidence = (classify_intent_spec_presence m).confidence) ∧
    (classify_user_intent "I want to buy a house").intent = IntentType.buy ∧
    (0 : ℚ) < (classify_user_intent "I want to buy a house").confidence ∧
    (classify_user_intent "xyz").intent = IntentType.unknown ∧
    (classify_user_intent "xyz").confidence = 0 := by
  refine ⟨?_, by decide, ?_, by decide, by decide⟩
  · intro m
    unfold classify_user_intent classify_intent_spec_presence
    simp only [pickMaxIntent_eq]
    set b := keywordScore (lowerStr m) buy_keywords with hb
    set s := keywordScore (lowerStr m) sell_keywords with hs
    set r := keywordScore (lowerStr m) rent_keywords with hr
    set i := keywordScore (lowerStr m) info_keywords with hi
    by_cases hm : max (max b s) (max r i) = 0
    · simp [hm]
    · have htot : max (b + s + r + i) 1 = b + s + r + i := by
        omega
      simp [hm, htot]
  · have h : (classify_user_intent "I want to buy a house").confidence
        = ((3 : ℕ) : ℚ) / ((3 : ℕ) : ℚ) := rfl
    rw [h]
    norm_num

/-! ## Property search tool
Source: src/core/tools/property_search_tool.py -/

/-- Property location information (dataclass `PropertyLocation`). -/
structure PropertyLocation where
  city : String
  area : String
  address : String
  coordinates : Option (List (String × ℚ))
deriving DecidableEq

/-- Property features and amenities (dataclass `PropertyFeatures`). -/
structure PropertyFeatures where
  bedrooms : ℤ
  bathrooms : ℤ
  size_sqft : ℤ
  parking : Bool
  balcony : Bool
  garden : Bool
  security : Bool
  gym : Bool
  pool : Bool
  elevator : Bool
deriving DecidableEq

/-- Complete property information (dataclass `Property`). -/
structure Property where
  id : String
  title : String
  description : String
  price_crores : ℚ
  property_type : String
  location : PropertyLocation
  features : PropertyFeatures
  images : List String
  year_built : Option ℤ
  maintenance_fee : Option ℚ
  available : Bool
deriving DecidableEq

/-- Search criteria (pydantic model `PropertySearchCriteria`); `max_results`
is a Python `int` (default 10), modelled as `ℤ` since the source does not
constrain its sign. -/
structure PropertySearchCriteria where
  property_type : Option String
  locations : Option (List String)
  min_price : Option ℚ
  max_price : Option ℚ
  min_bedrooms : Option ℤ
  max_bedrooms : Option ℤ
  min_bathrooms : Option ℤ
  must_have_features : Option (List String)
  max_results : ℤ
deriving DecidableEq

/-- Result of property search (pydantic model `PropertySearchResult`). -/
structure PropertySearchResult where
  properties : List Property
  total_found : ℕ
  search_criteria : PropertySearchCriteria
deriving DecidableEq

/-- Python slice `l[:n]` for an arbitrary (possibly negative) `n`:
nonnegative `n` keeps the first `n` elements, negative `n` drops the last
`-n` elements (clamped at the empty list). -/
def pySliceTo (n : ℤ) (l : List α) : List α :=
  if 0 ≤ n then l.take n.toNat else l.take ((l.length : ℤ) + n).toNat

/-- The type filter body: `criteria.property_type.lower() in p.property_type.lower()`. -/
def typeMatch (t : String) (p : Property) : Bool :=
  containsSub (lowerStr p.property_type) (lowerStr t)

/-- The location filter body: some requested location is a substring of the
property's city or area (all lower-cased). -/
def locationMatch (locs : List String) (p : Property) : Bool :=
  locs.any (fun l =>
    containsSub (lowerStr p.location.city) (lowerStr l) ||
    containsSub (lowerStr p.location.area) (lowerStr l))

/-- One disjunct per recognized feature name, exactly as in the source's
`has_all_features` check; an unrecognized feature name yields `false`
(it is ignored, not an error). -/
def featureViolation (p : Property) (f : String) : Bool :=
  let fl := lowerStr f
  (fl == "parking".toList && !p.features.parking) ||
  (fl == "balcony".toList && !p.features.balcony) ||
  (fl == "garden".toList && !p.features.garden) ||
  (fl == "security".toList && !p.features.security) ||
  (fl == "gym".toList && !p.features.gym) ||
  (fl == "pool".toList && !p.features.pool) ||
  (fl == "elevator".toList && !p.features.elevator)

/-- A stage guarded by Python truthiness of an optional string
(`if criteria.property_type:` — skipped when `None` or empty). -/
def stageStr (o : Option String) (f : String → Property → Bool)
    (l : List Property) : List Property :=
  match o with
  | some t => if t.isEmpty then l else l.filter (f t)
  | none => l

/-- A stage guarded by Python truthiness of an optional list
(`if criteria.locations:` — skipped when `None` or empty). -/
def stageList (o : Option (List String)) (f : List String → Property → Bool)
    (l : List Property) : List Property :=
  match o with
  | some L => if L.isEmpty then l else l.filter (f L)
  | none => l

/-- A stage guarded by `is not None` (`if criteria.min_price is not None:`). -/
def stageOpt {β : Type} (o : Option β) (f : β → Property → Bool)
    (l : List Property) : List Property :=
  match o with
  | some v => l.filter (f v)
  | none => l

/-- The sequential filter pipeline of `_filter_properties` before the final
`filtered[:criteria.max_results]` slice, stage for stage in source order:
property type, locations, min price, max price, min bedrooms, max
bedrooms, min bathrooms, must-have features, availability. -/
def filter_properties_nocap (props : List Property) (c : PropertySearchCriteria) :
    List Property :=
  let f1 := stageStr c.property_type typeMatch props
  let f2 := stageList c.locations locationMatch f1
  let f3 := stageOpt c.min_price (fun v p => decide (v ≤ p.price_crores)) f2
  let f4 := stageOpt c.max_price (fun v p => decide (p.price_crores ≤ v)) f3
  let f5 := stageOpt c.min_bedrooms (fun v p => decide (v ≤ p.features.bedrooms)) f4
  let f6 := stageOpt c.max_bedrooms (fun v p => decide (p.features.bedrooms ≤ v)) f5
  let f7 := stageOpt c.min_bathrooms (fun v p => decide (v ≤ p.features.bathrooms)) f6
  let f8 := stageList c.must_have_features
    (fun feats p => feats.all (fun f => !featureViolation p f)) f7
  f8.filter (fun p => p.available)

/-- Embedding of `_filter_properties`: the staged filters followed by the
Python slice `filtered[:criteria.max_results]`. -/
def filter_properties (props : List Property) (c : PropertySearchCriteria) :
    List Property :=
  pySliceTo c.max_results (filter_properties_nocap props c)

/-- The five sample records of `_load_sample_properties` (fields not used by
any filter are carried verbatim; image URL lists are kept as strings). -/
def sample_properties : List Property :=
  [{ id := "prop_001",
     title := "Luxury 3-Bed Apartment in DHA Phase 5",
     description := "Beautiful modern apartment with premium finishes, located in the heart of DHA Phase 5. Close to schools, shopping centers, and main roads.",
     price_crores := 2.5,
     property_type := "apartment",
     location := { city := "Lahore", area := "DHA Phase 5",
                   address := "Block A, DHA Phase 5, Lahore", coordinates := none },
     features := { bedrooms := 3, bathrooms := 3, size_sqft := 1800,
                   parking := true, balcony := true, garden := false,
                   security := true, gym := true, pool := false, elevator := true },
     images := ["https://example.com/prop1_1.jpg", "https://example.com/prop1_2.jpg"],
     year_built := some 2020, maintenance_fee := some 15000, available := true },
   { id := "prop_002",
     title := "Spacious 4-Bed House in Gulshan Iqbal",
     description := "Well-maintained house with large garden, perfect for families. Located near Karachi University and major shopping areas.",
     price_crores := 1.8,
     property_type := "house",
     location := { city := "Karachi", area := "Gulshan Iqbal",
                   address := "Block 6, Gulshan Iqbal, Karachi", coordinates := none },
     features := { bedrooms := 4, bathrooms := 3, size_sqft := 2200,
                   parking := true, balcony := true, garden := true,
                   security := true, gym := false, pool := false, elevator := false },
     images := ["https://example.com/prop2_1.jpg", "https://example.com/prop2_2.jpg"],
     year_built := some 2018, maintenance_fee := some 8000, available := true },
   { id := "prop_003",
     title := "Modern 2-Bed Apartment in F-8 Islamabad",
     description := "Contemporary apartment with city views, ideal for young professionals. Close to business district and restaurants.",
     price_crores := 3.2,
     property_type := "apartment",
     location := { city := "Islamabad", area := "F-8",
                   address := "F-8/3, Islamabad", coordinates := none },
     features := { bedrooms := 2, bathrooms := 2, size_sqft := 1200,
                   parking := true, balcony := true, garden := false,
                   security := true, gym := true, pool := true, elevator := true },
     images := ["https://example.com/prop3_1.jpg", "https://example.com/prop3_2.jpg"],
     year_built := some 2022, maintenance_fee := some 20000, available := true },
   { id := "prop_004",
     title := "Cozy 1-Bed Apartment in Clifton Karachi",
     description := "Charming apartment near the beach, perfect for singles or couples. Walking distance to restaurants and cafes.",
     price_crores := 1.2,
     property_type := "apartment",
     location := { city := "Karachi", area := "Clifton",
                   address := "Block 2, Clifton, Karachi", coordinates := none },
     features := { bedrooms := 1, bathrooms := 1, size_sqft := 800,
                   parking := false, balcony := true, garden := false,
                   security := true, gym := false, pool := false, elevator := false },
     images := ["https://example.com/prop4_1.jpg"],
     year_built := some 2019, maintenance_fee := some 12000, available := true },
   { id := "prop_005",
     title := "Family Bungalow in DHA Phase 2",
     description := "Large family bungalow with private garden and servant quarters. Perfect for extended families.",
     price_crores := 4.5,
     property_type := "bungalow",
     location := { city := "Lahore", area := "DHA Phase 2",
                   address := "Block B, DHA Phase 2, Lahore", coordinates := none },
     features := { bedrooms := 5, bathrooms := 4, size_sqft := 3500,
                   parking := true, balcony := true, garden := true,
                   security := true, gym := false, pool := false, elevator := false },
     images := ["https://example.com/prop5_1.jpg", "https://example.com/prop5_2.jpg"],
     year_built := some 2015, maintenance_fee := some 25000, available := true }]

/-- Embedding of the tool `search_properties`: filter the sample catalog by
the criteria and return the matches, their count, and the criteria. -/
def search_properties (criteria : PropertySearchCriteria) : PropertySearchResult :=
  let matching_properties := filter_properties sample_properties criteria
  { properties := matching_properties,
    total_found := matching_properties.length,
    search_criteria := criteria }

/-- The predicate enforced by a truthiness-guarded string stage on one
property: trivially true when the field is absent or empty. -/
def stageStrPred (o : Option String) (f : String → Property → Bool) : Property → Bool :=
  fun p => match o with | some t => if t.isEmpty then true else f t p | none => true

/-- The predicate enforced by a truthiness-guarded list stage on one
property: trivially true when the field is absent or the list empty. -/
def stageListPred (o : Option (List String)) (f : List String → Property → Bool) :
    Property → Bool :=
  fun p => match o with | some L => if L.isEmpty then true else f L p | none => true

/-- The predicate enforced by an `is not None` stage on one property:
trivially true when the field is absent. -/
def stageOptPred {β : Type} (o : Option β) (f : β → Property → Bool) : Property → Bool :=
  fun p => match o with | some v => f v p | none => true

/-- The conjunction of all filter predicates of a criteria value as they
act on one property: each constraint that the source's guard considers
present (`is not None` for the numeric bounds, Python truthiness for the
string/list fields) must hold, and the property must be available.  The
conjuncts are arranged as produced by fusing the staged pipeline into a
single filter (availability first, then the stages from last to first). -/
def matchesCriteria (c : PropertySearchCriteria) (p : Property) : Bool :=
  p.available &&
    (stageListPred c.must_have_features
      (fun feats p => feats.all (fun f => !featureViolation p f)) p &&
    (stageOptPred c.min_bathrooms (fun v p => decide (v ≤ p.features.bathrooms)) p &&
    (stageOptPred c.max_bedrooms (fun v p => decide (p.features.bedrooms ≤ v)) p &&
    (stageOptPred c.min_bedrooms (fun v p => decide (v ≤ p.features.bedrooms)) p &&
    (stageOptPred c.max_price (fun v p => decide (p.price_crores ≤ v)) p &&
    (stageOptPred c.min_price (fun v p => decide (v ≤ p.price_crores)) p &&
    (stageListPred c.locations locationMatch p &&
     stageStrPred c.property_type typeMatch p)))))))

/-- A truthiness-guarded string stage is a filter with the guard folded
into the predicate. -/
lemma stageStr_eq_filter (o : Option String) (f : String → Property → Bool)
    (l : List Property) :
    stageStr o f l = l.filter (stageStrPred o f) := by
  cases o with
  | none => exact (List.filter_eq_self.mpr (fun a _ => rfl)).symm
  | some t =>
    by_cases ht : t.isEmpty
    · simp only [stageStr, if_pos ht]
      exact (List.filter_eq_self.mpr (fun a _ => by simp [stageStrPred, ht])).symm
    · simp only [stageStr, if_neg ht]
      exact List.filter_congr (fun a _ => by simp [stageStrPred, ht])

/-- A truthiness-guarded list stage is a filter with the guard folded into
the predicate. -/
lemma stageList_eq_filter (o : Option (List String)) (f : List String → Property → Bool)
    (l : List Property) :
    stageList o f l = l.filter (stageListPred o f) := by
  cases o with
  | none => exact (List.filter_eq_self.mpr (fun a _ => rfl)).symm
  | some L =>
    by_cases hL : L.isEmpty
    · simp only [stageList, if_pos hL]
      exact (List.filter_eq_self.mpr (fun a _ => by simp [stageListPred, hL])).symm
    · simp only [stageList, if_neg hL]
      exact List.filter_congr (fun a _ => by simp [stageListPred, hL])

/-- An `is not None` stage is a filter with the guard folded into the
predicate. -/
lemma stageOpt_eq_filter {β : Type} (o : Option β) (f : β → Property → Bool)
    (l : List Property) :
    stageOpt o f l = l.filter (stageOptPred o f) := by
  cases o with
  | none => exact (List.filter_eq_self.mpr (fun a _ => rfl)).symm
  | some v => exact List.filter_congr (fun a _ => rfl)

/-- The staged filter pipeline of `_filter_properties` equals one filter by
the conjunction of all criteria predicates. -/
lemma filter_properties_nocap_eq (props : List Property) (c : PropertySearchCriteria) :
    filter_properties_nocap props c = props.filter (matchesCriteria c) := by
  unfold filter_properties_nocap
  simp only [stageStr_eq_filter, stageList_eq_filter, stageOpt_eq_filter,
    List.filter_filter]
  rfl

/-- Taking a Python slice `l[:n]` keeps a subset of the list. -/
lemma pySliceTo_subset (n : ℤ) (l : List α) : pySliceTo n l ⊆ l := by
  unfold pySliceTo
  split_ifs <;> exact List.take_subset _ _

/-- For a nonnegative bound, the Python slice `l[:n]` has at most `n`
elements. -/
lemma length_pySliceTo_le (n : ℤ) (h : 0 ≤ n) (l : List α) :
    ((pySliceTo n l).length : ℤ) ≤ n := by
  unfold pySliceTo
  rw [if_pos h]
  simp only [List.length_take]
  omega

/-- The length of a Python slice `l[:n]` is monotone in the length of `l`
for a fixed bound, including negative bounds. -/
lemma pySliceTo_length_mono (n : ℤ) {l l' : List α} (h : l'.length ≤ l.length) :
    (pySliceTo n l').length ≤ (pySliceTo n l).length := by
  unfold pySliceTo
  split_ifs with h0
  · simp only [List.length_take]
    omega
  · simp only [List.length_take]
    omega

/-- C1 (amended): for every criteria value with a nonnegative result cap,
`search_properties` returns a result whose `total_found` equals the length
of its properties list, whose properties list has at most `max_results`
elements, and in which every returned property satisfies every filter
predicate present in the criteria (type substring match, any-of location
substring match on city or area, price bounds, bedroom bounds, bathroom
bound, all-of recognized required features) and is available.  The
nonnegativity hypothesis is forced by the counterexample
`search_properties_negative_cap_violation`: the source truncates with the
Python slice `filtered[:max_results]`, which for a negative cap drops
elements from the end instead of bounding the count. -/
theorem search_properties_sound (c : PropertySearchCriteria) (h : 0 ≤ c.max_results) :
    (search_properties c).total_found = (search_properties c).properties.length ∧
    (((search_properties c).properties.length : ℤ) ≤ c.max_results) ∧
    ∀ p ∈ (search_properties c).properties, matchesCriteria c p = true := by
  refine ⟨rfl, ?_, ?_⟩
  · exact length_pySliceTo_le c.max_results h _
  · intro p hp
    have hp2 : p ∈ filter_properties_nocap sample_properties c :=
      pySliceTo_subset _ _ hp
    rw [filter_properties_nocap_eq] at hp2
    exact (List.mem_filter.mp hp2).2

/-- Witness for `search_properties_sound` at the default criteria (all
filters absent, cap 10). -/
theorem search_properties_sound_witness :
    (search_properties ⟨none, none, none, none, none, none, none, none, 10⟩).total_found =
      (search_properties ⟨none, none, none, none, none, none, none, none, 10⟩).properties.length ∧
    (((search_properties
        ⟨none, none, none, none, none, none, none, none, 10⟩).properties.length : ℤ) ≤ 10) ∧
    ∀ p ∈ (search_properties ⟨none, none, none, none, none, none, none, none, 10⟩).properties,
      matchesCriteria ⟨none, none, none, none, none, none, none, none, 10⟩ p = true :=
  search_properties_sound ⟨none, none, none, none, none, none, none, none, 10⟩ (by decide)

/-- C1 counterexample: with `max_results = -1` (a value the source's `int`
field allows) the returned list has 4 elements, which is not at most
`max_results`, because the Python slice `filtered[:-1]` drops the last
element of the 5 available sample properties instead of capping. -/
theorem search_properties_negative_cap_violation :
    ¬ (((search_properties
          ⟨none, none, none, none, none, none, none, none, -1⟩).properties.length : ℤ) ≤
        (⟨none, none, none, none, none, none, none, none,
          -1⟩ : PropertySearchCriteria).max_results) := by
  decide

/-- The single-constraint extension relation of the monotonicity claim,
minus the location-adding case the counterexample removes: the second
criteria value sets one previously-unset filter field of the first, or
appends one required feature to an already-present feature list.  All
other fields (including `max_results`) are unchanged. -/
def AddsOneConstraint (c c' : PropertySearchCriteria) : Prop :=
  (∃ t, c.property_type = none ∧ c' = { c with property_type := some t }) ∨
  (∃ L, c.locations = none ∧ c' = { c with locations := some L }) ∨
  (∃ v, c.min_price = none ∧ c' = { c with min_price := some v }) ∨
  (∃ v, c.max_price = none ∧ c' = { c with max_price := some v }) ∨
  (∃ v, c.min_bedrooms = none ∧ c' = { c with min_bedrooms := some v }) ∨
  (∃ v, c.max_bedrooms = none ∧ c' = { c with max_bedrooms := some v }) ∨
  (∃ v, c.min_bathrooms = none ∧ c' = { c with min_bathrooms := some v }) ∨
  (∃ L, c.must_have_features = none ∧ c' = { c with must_have_features := some L }) ∨
  (∃ L f, c.must_have_features = some L ∧
    c' = { c with must_have_features := some (L ++ [f]) })

/-- Adding one constraint never changes the result cap. -/
lemma addsOneConstraint_max_results {c c' : PropertySearchCriteria}
    (h : AddsOneConstraint c c') : c'.max_results = c.max_results := by
  rcases h with ⟨t, hn, rfl⟩ | ⟨L, hn, rfl⟩ | ⟨v, hn, rfl⟩ | ⟨v, hn, rfl⟩ | ⟨v, hn, rfl⟩ |
    ⟨v, hn, rfl⟩ | ⟨v, hn, rfl⟩ | ⟨L, hn, rfl⟩ | ⟨L, f, hL, rfl⟩ <;> rfl

/-- A property matching the extended criteria matches the original ones:
each added predicate only strengthens the conjunction. -/
lemma matchesCriteria_mono {c c' : PropertySearchCriteria} (h : AddsOneConstraint c c')
    {p : Property} (hp : matchesCriteria c' p = true) : matchesCriteria c p = true := by
  obtain ⟨pt, locs, mnp, mxp, mnb, mxb, mnbt, mhf, mr⟩ := c
  rcases h with ⟨t, hn, rfl⟩ | ⟨L, hn, rfl⟩ | ⟨v, hn, rfl⟩ | ⟨v, hn, rfl⟩ | ⟨v, hn, rfl⟩ |
    ⟨v, hn, rfl⟩ | ⟨v, hn, rfl⟩ | ⟨L, hn, rfl⟩ | ⟨L, f, hn, rfl⟩ <;>
    subst hn <;>
    simp only [matchesCriteria, stageStrPred, stageListPred, stageOptPred,
      Bool.and_eq_true] at hp ⊢ <;>
    try tauto
  rcases L with _ | ⟨x, xs⟩
  · simp only [List.nil_append, List.isEmpty_nil, if_true] at hp ⊢
    simp only [List.isEmpty_cons, Bool.false_eq_true, if_false] at hp
    tauto
  · simp only [List.cons_append, List.isEmpty_cons, Bool.false_eq_true, if_false,
      List.all_cons, List.all_append, Bool.and_eq_true, List.all_nil,
      Bool.and_true] at hp ⊢
    tauto

/-- C5 (amended): setting one previously-unset filter field or adding one
required feature never increases the result count; this is the claim's
monotonicity statement with the location-adding case removed, which the
counterexample `search_add_location_increases_count` shows to widen the
any-of location match instead of narrowing it. -/
theorem search_properties_narrowing (c c' : PropertySearchCriteria)
    (h : AddsOneConstraint c c') :
    (search_properties c').total_found ≤ (search_properties c).total_found := by
  show (filter_properties sample_properties c').length ≤
    (filter_properties sample_properties c).length
  unfold filter_properties
  rw [filter_properties_nocap_eq, filter_properties_nocap_eq, addsOneConstraint_max_results h]
  exact pySliceTo_length_mono _ (List.Sublist.length_le
    (List.monotone_filter_right _ (fun a ha => matchesCriteria_mono h ha)))

/-- Witness for `search_properties_narrowing`: setting a previously unset
minimum price on the otherwise-empty criteria. -/
theorem search_properties_narrowing_witness :
    AddsOneConstraint ⟨none, none, none, none, none, none, none, none, 10⟩
      ⟨none, none, some 2, none, none, none, none, none, 10⟩ ∧
    (search_properties ⟨none, none, some 2, none, none, none, none, none, 10⟩).total_found ≤
      (search_properties ⟨none, none, none, none, none, none, none, none, 10⟩).total_found := by
  have hA : AddsOneConstraint ⟨none, none, none, none, none, none, none, none, 10⟩
      ⟨none, none, some 2, none, none, none, none, none, 10⟩ :=
    Or.inr (Or.inr (Or.inl ⟨2, rfl, rfl⟩))
  exact ⟨hA, search_properties_narrowing _ _ hA⟩

/-- C5 counterexample: adding the location "Karachi" to criteria that
already restrict to "Lahore" increases the result count from 2 to 4,
because the location filter is an any-of match, so the claim that adding a
location never increases `total_found` is false. -/
theorem search_add_location_increases_count :
    (search_properties
        ⟨none, some ["Lahore"], none, none, none, none, none, none, 10⟩).total_found <
      (search_properties
        ⟨none, some ["Lahore", "Karachi"], none, none, none, none, none, none,
          10⟩).total_found := by
  decide

/-! ## Refinement tool
Source: src/core/tools/refinement_tool.py -/

/-- Python truthiness of an optional list: `None` and `[]` are falsy. -/
def listTruthy {α : Type} : Option (List α) → Bool
  | none => false
  | some l => !l.isEmpty

/-- Does any phrase of the class occur in the lower-cased feedback? -/
def phraseAny (fl : List Char) (phrases : List String) : Bool :=
  phrases.any (fun ph => containsSub fl ph.toList)

/-- Phrases of the price-decrease class. -/
def price_down_phrases : List String :=
  ["too expensive", "price too high", "over budget", "reduce price"]

/-- Phrases of the price-increase class. -/
def price_up_phrases : List String :=
  ["increase budget", "higher price", "more expensive"]

/-- Phrases of the more-bedrooms class. -/
def bed_up_phrases : List String :=
  ["more bedrooms", "need more rooms", "bigger house"]

/-- Phrases of the fewer-bedrooms class. -/
def bed_down_phrases : List String :=
  ["fewer bedrooms", "smaller house", "less rooms"]

/-- Phrases of the location-change class. -/
def location_phrases : List String :=
  ["different location", "other area", "change location"]

/-- Phrases of the parking-feature class. -/
def parking_phrases : List String :=
  ["need parking", "must have parking"]

/-- Phrases of the balcony-feature class. -/
def balcony_phrases : List String :=
  ["need balcony", "must have balcony"]

/-- Phrases of the garden-feature class. -/
def garden_phrases : List String :=
  ["need garden", "must have garden"]

/-- Phrases of the apartment type class. -/
def apartment_phrases : List String :=
  ["apartment", "flat"]

/-- Phrases of the house type class. -/
def house_phrases : List String :=
  ["house", "bungalow", "villa"]

/-- One entry of the source's `changes_made` list.  The source stores
formatted message strings; each constructor here records the message's
class together with the numeric or feature payload interpolated into it,
so the float-formatting of the presentation layer is not re-modelled. -/
inductive ChangeMade where
  | reduced_max_price (v : ℚ)
  | increased_max_price (v : ℚ)
  | set_max_price (v : ℚ)
  | increased_min_bedrooms (v : ℤ)
  | reduced_min_bedrooms (v : ℤ)
  | set_min_bedrooms (v : ℤ)
  | specify_preferred_areas
  | added_feature (f : String)
  | set_property_type (t : String)
deriving DecidableEq, Repr

/-- Which of the two reasoning messages the source produces: the
adjustment summary (when `changes_made` is nonempty) or the request for
more specific information.  The source interpolates the feedback and the
change list into the message text; only the branch is modelled. -/
inductive RefinementReasoning where
  | adjustments
  | clarification
deriving DecidableEq, Repr

/-- Result record of `refine_search_criteria`. -/
structure RefinementResult where
  updated_criteria : PropertySearchCriteria
  changes_made : List ChangeMade
  reasoning : RefinementReasoning
deriving DecidableEq

/-- One feature block of the source (parking, balcony or garden): when a
phrase of the class occurs, reassign the list to `[]` if it is falsy
(`None` or empty), then append the feature unless already present.
Returns the new field value and the change entries. -/
def featureBlock (fl : List Char) (phrases : List String) (f : String)
    (m : Option (List String)) : Option (List String) × List ChangeMade :=
  if phraseAny fl phrases then
    let base := match m with
      | none => []
      | some l => if l.isEmpty then [] else l
    if base.contains f then (some base, [])
    else (some (base ++ [f]), [ChangeMade.added_feature f])
  else (m, [])

/-- Embedding of `refine_search_criteria` from
src/core/tools/refinement_tool.py.  The source copies the criteria with
pydantic `model_copy()`, which is a shallow copy: the `must_have_features`
list object stays shared with the caller until a block reassigns it, and
reassignment happens only when the field is falsy.  The function therefore
returns both the `RefinementResult` and the caller's criteria value as it
stands after the call: when the caller's feature list was nonempty and a
feature block appended to it, the caller's value reflects the appends;
otherwise it is unchanged.  Python float truthiness (`if
updated_criteria.max_price:`) makes `None` and `0.0` both falsy, likewise
`if updated_criteria.min_bedrooms:` for `None` and `0`. -/
def refine_search_criteria (current_criteria : PropertySearchCriteria)
    (user_feedback : String) : RefinementResult × PropertySearchCriteria :=
  let fl := lowerStr user_feedback
  let priceStep :=
    if phraseAny fl price_down_phrases then
      match current_criteria.max_price with
      | some v =>
        if v != 0 then (some (v * 0.8), [ChangeMade.reduced_max_price (v * 0.8)])
        else (some (2.0 : ℚ), [ChangeMade.set_max_price 2.0])
      | none => (some (2.0 : ℚ), [ChangeMade.set_max_price 2.0])
    else if phraseAny fl price_up_phrases then
      match current_criteria.max_price with
      | some v =>
        if v != 0 then (some (v * 1.5), [ChangeMade.increased_max_price (v * 1.5)])
        else (some (5.0 : ℚ), [ChangeMade.set_max_price 5.0])
      | none => (some (5.0 : ℚ), [ChangeMade.set_max_price 5.0])
    else (current_criteria.max_price, [])
  let bedStep :=
    if phraseAny fl bed_up_phrases then
      match current_criteria.min_bedrooms with
      | some v =>
        if v != 0 then (some (max (v + 1) 3), [ChangeMade.increased_min_bedrooms (max (v + 1) 3)])
        else (some (3 : ℤ), [ChangeMade.set_min_bedrooms 3])
      | none => (some (3 : ℤ), [ChangeMade.set_min_bedrooms 3])
    else if phraseAny fl bed_down_phrases then
      match current_criteria.min_bedrooms with
      | some v =>
        if v != 0 then (some (max (v - 1) 1), [ChangeMade.reduced_min_bedrooms (max (v - 1) 1)])
        else (some (1 : ℤ), [ChangeMade.set_min_bedrooms 1])
      | none => (some (1 : ℤ), [ChangeMade.set_min_bedrooms 1])
    else (current_criteria.min_bedrooms, [])
  let locStep : List ChangeMade :=
    if phraseAny fl location_phrases then [ChangeMade.specify_preferred_areas] else []
  let fb1 := featureBlock fl parking_phrases "parking" current_criteria.must_have_features
  let fb2 := featureBlock fl balcony_phrases "balcony" fb1.1
  let fb3 := featureBlock fl garden_phrases "garden" fb2.1
  let typeStep :=
    if phraseAny fl apartment_phrases then
      (some "apartment", [ChangeMade.set_property_type "apartment"])
    else if phraseAny fl house_phrases then
      (some "house", [ChangeMade.set_property_type "house"])
    else (current_criteria.property_type, [])
  let changes_made :=
    priceStep.2 ++ bedStep.2 ++ locStep ++ fb1.2 ++ fb2.2 ++ fb3.2 ++ typeStep.2
  let reasoning :=
    if changes_made.isEmpty then RefinementReasoning.clarification
    else RefinementReasoning.adjustments
  let updated_criteria :=
    { current_criteria with
        property_type := typeStep.1,
        max_price := priceStep.1,
        min_bedrooms := bedStep.1,
        must_have_features := fb3.1 }
  let anyAppend := !fb1.2.isEmpty || !fb2.2.isEmpty || !fb3.2.isEmpty
  let caller_after :=
    { current_criteria with
        must_have_features :=
          if listTruthy current_criteria.must_have_features && anyAppend then fb3.1
          else current_criteria.must_have_features }
  ({ updated_criteria := updated_criteria,
     changes_made := changes_made,
     reasoning := reasoning },
   caller_after)

/-- Does any of the ten phrase classes of the refinement table match the
lower-cased feedback? -/
def anyClassMatches (fl : List Char) : Bool :=
  phraseAny fl price_down_phrases || phraseAny fl price_up_phrases ||
  phraseAny fl bed_up_phrases || phraseAny fl bed_down_phrases ||
  phraseAny fl location_phrases || phraseAny fl parking_phrases ||
  phraseAny fl balcony_phrases || phraseAny fl garden_phrases ||
  phraseAny fl apartment_phrases || phraseAny fl house_phrases

/-- C2: the claim that `refine_search_criteria` is pure and never mutates
the caller's criteria fails on the source: `model_copy()` is a shallow
copy, so with `must_have_features = ["balcony"]` and feedback
"need parking" the parking append goes through the shared list object
into the caller's criteria (which afterwards holds
`["balcony", "parking"]`), and repeating the same call on the caller's
value returns a different `changes_made` list (empty, as the feature is
now present) than the first call. -/
theorem refine_search_criteria_mutates_caller :
    (refine_search_criteria
        ⟨none, none, none, none, none, none, none, some ["balcony"], 10⟩
        "need parking").2 ≠
      ⟨none, none, none, none, none, none, none, some ["balcony"], 10⟩ ∧
    (refine_search_criteria
        ⟨none, none, none, none, none, none, none, some ["balcony"], 10⟩
        "need parking").2.must_have_features = some ["balcony", "parking"] ∧
    (refine_search_criteria
        ((refine_search_criteria
            ⟨none, none, none, none, none, none, none, some ["balcony"], 10⟩
            "need parking").2)
        "need parking").1.changes_made ≠
      (refine_search_criteria
        ⟨none, none, none, none, none, none, none, some ["balcony"], 10⟩
        "need parking").1.changes_made := by
  refine ⟨by decide, by decide, by decide⟩

/-- C4 counterexample: on the feedback "too expensive and higher price"
both the price-decrease class and the price-increase class match, but the
source's `elif` applies only the decrease: the result's max price is 2.4
(down from 3.0) and the change list records only the reduction, so the
claim that all matching phrase-class mutations apply is false. -/
theorem refine_elif_skips_matched_class :
    phraseAny (lowerStr "too expensive and higher price") price_up_phrases = true ∧
    (refine_search_criteria ⟨none, none, none, some 3, none, none, none, none, 10⟩
        "too expensive and higher price").1.updated_criteria.max_price = some 2.4 ∧
    (refine_search_criteria ⟨none, none, none, some 3, none, none, none, none, 10⟩
        "too expensive and higher price").1.changes_made =
      [ChangeMade.reduced_max_price 2.4] := by
  refine ⟨by decide, ?_, ?_⟩
  · have h : (refine_search_criteria ⟨none, none, none, some 3, none, none, none, none, 10⟩
        "too expensive and higher price").1.updated_criteria.max_price
        = some ((3 : ℚ) * 0.8) := rfl
    rw [h]
    norm_num
  · have h : (refine_search_criteria ⟨none, none, none, some 3, none, none, none, none, 10⟩
        "too expensive and higher price").1.changes_made
        = [ChangeMade.reduced_max_price ((3 : ℚ) * 0.8)] := rfl
    rw [h]
    norm_num

/-- C4 (amended): the phrase-to-mutation table applies with classes of
different categories composing, but inside one category (price, bedrooms,
property type) the classes are chained with `elif`, so when both match
only the earlier class applies; when no class matches, the criteria come
back unchanged with the clarification reasoning and the caller's value is
untouched; feedback "too expensive" turns max price 3.0 into 2.4 with a
price-reduction change entry, and with no max price set it sets 2.0; and
the cross-category feedback "too expensive, need parking" applies both
the price reduction and the parking feature addition. -/
theorem refine_search_criteria_table :
    (∀ (c : PropertySearchCriteria) (fb : String),
      anyClassMatches (lowerStr fb) = false →
      refine_search_criteria c fb =
        ({ updated_criteria := c, changes_made := [],
           reasoning := RefinementReasoning.clarification }, c)) ∧
    (refine_search_criteria ⟨none, none, none, some 3, none, none, none, none, 10⟩
        "too expensive").1.updated_criteria.max_price = some 2.4 ∧
    (refine_search_criteria ⟨none, none, none, some 3, none, none, none, none, 10⟩
        "too expensive").1.changes_made = [ChangeMade.reduced_max_price 2.4] ∧
    (refine_search_criteria ⟨none, none, none, none, none, none, none, none, 10⟩
        "too expensive").1.updated_criteria.max_price = some 2 ∧
    (refine_search_criteria ⟨none, none, none, some 3, none, none, none, none, 10⟩
        "too expensive, need parking").1.changes_made =
      [ChangeMade.reduced_max_price 2.4, ChangeMade.added_feature "parking"] := by
  refine ⟨?_, ?_, ?_, ?_, ?_⟩
  · intro c fb h
    simp only [anyClassMatches, Bool.or_eq_false_iff] at h
    obtain ⟨⟨⟨⟨⟨⟨⟨⟨⟨h1, h2⟩, h3⟩, h4⟩, h5⟩, h6⟩, h7⟩, h8⟩, h9⟩, h10⟩ := h
    simp only [refine_search_criteria, featureBlock, h1, h2, h3, h4, h5, h6, h7, h8, h9, h10,
      Bool.false_eq_true, if_false, List.append_nil, List.nil_append, List.isEmpty_nil,
      if_true, Bool.not_true, Bool.or_self, Bool.and_false]
  · have h : (refine_search_criteria ⟨none, none, none, some 3, none, none, none, none, 10⟩
        "too expensive").1.updated_criteria.max_price = some ((3 : ℚ) * 0.8) := rfl
    rw [h]
    norm_num
  · have h : (refine_search_criteria ⟨none, none, none, some 3, none, none, none, none, 10⟩
        "too expensive").1.changes_made
        = [ChangeMade.reduced_max_price ((3 : ℚ) * 0.8)] := rfl
    rw [h]
    norm_num
  · have h : (refine_search_criteria ⟨none, none, none, none, none, none, none, none, 10⟩
        "too expensive").1.updated_criteria.max_price = some (2.0 : ℚ) := rfl
    rw [h]
    norm_num
  · have h : (refine_search_criteria ⟨none, none, none, some 3, none, none, none, none, 10⟩
        "too expensive, need parking").1.changes_made
        = [ChangeMade.reduced_max_price ((3 : ℚ) * 0.8),
           ChangeMade.added_feature "parking"] := rfl
    rw [h]
    norm_num

/-- Witness for `refine_search_criteria_table`: the feedback "hello"
matches no phrase class and leaves concrete criteria unchanged with the
clarification reasoning. -/
theorem refine_search_criteria_table_witness :
    anyClassMatches (lowerStr "hello") = false ∧
    refine_search_criteria ⟨none, none, none, none, none, none, none, none, 10⟩ "hello" =
      ({ updated_criteria := ⟨none, none, none, none, none, none, none, none, 10⟩,
         changes_made := [],
         reasoning := RefinementReasoning.clarification },
       ⟨none, none, none, none, none, none, none, none, 10⟩) :=
  ⟨by decide,
   refine_search_criteria_table.1 ⟨none, none, none, none, none, none, none, none, 10⟩
     "hello" (by decide)⟩

/-! ## Favorites tool
Source: src/core/tools/favorites_tool.py.  The MongoDB collection is an
external collaborator; it is modelled as a list of records in insertion
order, with `find_one` returning the first match, `insert_one` appending,
`delete_one` removing the first match, and `find(...).sort("saved_at", -1)`
returning the user's records ordered by save time descending.  Store
reachability is a Boolean parameter: when the store is unreachable every
collection operation raises, which the source's `try`/`except` turns into
an error-status result, so each embedded operation takes `reachable` and
returns the error result with the store unchanged when it is false. -/

/-- A favorite record (pydantic model `FavoriteProperty`); the
server-assigned timestamp is modelled as a natural number. -/
structure FavoriteProperty where
  property_id : String
  user_id : String
  saved_at : ℕ
  notes : Option String
  priority : String
deriving DecidableEq, Repr

/-- Result record of the favorites operations (`FavoritesResult`). -/
structure FavoritesResult where
  status : String
  message : String
  favorites : Option (List FavoriteProperty)
deriving DecidableEq, Repr

/-- The composite-key match used by `find_one` and `delete_one`. -/
def favMatches (property_id user_id : String) (r : FavoriteProperty) : Bool :=
  r.property_id == property_id && r.user_id == user_id

/-- Number of stored records for one (property, user) pair. -/
def countFav (property_id user_id : String) (store : List FavoriteProperty) : ℕ :=
  store.countP (favMatches property_id user_id)

/-- Embedding of the tool `save_to_favorites`: check-then-insert guarded by
the (property, user) pair; an existing match yields a warning and no
write. -/
def save_to_favorites (reachable : Bool) (store : List FavoriteProperty)
    (property_id user_id : String) (notes : Option String) (priority : String)
    (now : ℕ) : FavoritesResult × List FavoriteProperty :=
  if !reachable then
    ({ status := "error", message := "Failed to save property: store unreachable",
       favorites := none }, store)
  else
    match store.find? (favMatches property_id user_id) with
    | some _ =>
      ({ status := "warning",
         message := "Property " ++ property_id ++ " is already in your favorites!",
         favorites := none }, store)
    | none =>
      let favorite : FavoriteProperty :=
        { property_id := property_id, user_id := user_id, saved_at := now,
          notes := notes, priority := priority }
      ({ status := "success",
         message := "Property " ++ property_id ++ " saved to your favorites! 🏡",
         favorites := none }, store ++ [favorite])

/-- Embedding of the tool `remove_from_favorites`: `delete_one` by the
composite key; zero deleted rows yield a warning. -/
def remove_from_favorites (reachable : Bool) (store : List FavoriteProperty)
    (property_id user_id : String) : FavoritesResult × List FavoriteProperty :=
  if !reachable then
    ({ status := "error", message := "Failed to remove property: store unreachable",
       favorites := none }, store)
  else
    if store.any (favMatches property_id user_id) then
      ({ status := "success",
         message := "Property " ++ property_id ++ " removed from favorites",
         favorites := none }, store.eraseP (favMatches property_id user_id))
    else
      ({ status := "warning",
         message := "Property " ++ property_id ++ " was not in your favorites",
         favorites := none }, store)

/-- Stable insertion of a record into a list ordered by save time
descending. -/
def insertSavedDesc (a : FavoriteProperty) : List FavoriteProperty → List FavoriteProperty
  | [] => [a]
  | b :: t => if b.saved_at < a.saved_at then a :: b :: t else b :: insertSavedDesc a t

/-- Model of the Mongo sort by `saved_at` descending. -/
def sortSavedDesc : List FavoriteProperty → List FavoriteProperty
  | [] => []
  | a :: t => insertSavedDesc a (sortSavedDesc t)

/-- Embedding of the tool `get_favorites`: all records of the user,
ordered by save time descending. -/
def get_favorites (reachable : Bool) (store : List FavoriteProperty)
    (user_id : String) : FavoritesResult :=
  if !reachable then
    { status := "error", message := "Failed to get favorites: store unreachable",
      favorites := none }
  else
    let favorites := sortSavedDesc (store.filter (fun r => r.user_id == user_id))
    { status := "success",
      message := "Found " ++ toString favorites.length ++ " favorite properties",
      favorites := some favorites }

/-! ## Customer preferences tool
Source: src/core/tools/save_customer_preferences_tool.py -/

/-- Budget range (dataclass `Budget`). -/
structure Budget where
  min : ℚ
  max : ℚ
deriving DecidableEq, Repr

/-- Customer preferences payload (dataclass `UserPreferences`). -/
structure UserPreferences where
  property_type : String
  locations : List String
  budget : Budget
  bedrooms : Option String
  bathrooms : Option String
  must_have_features : Option (List String)
deriving DecidableEq, Repr

/-- One document of the `customer_preferences` collection: a customer
identifier with the stored preferences payload. -/
structure PrefDoc where
  customer_id : ℕ
  preferences : UserPreferences
deriving DecidableEq, Repr

/-- Result of the preferences tool (the source returns a status/message
dict). -/
structure PrefSaveResult where
  status : String
  message : String
deriving DecidableEq, Repr

/-- Mongo `update_one(filter, {"$set": ...}, upsert=True)`: replace the
payload of the first document matching the customer identifier, or insert
a new document when none matches. -/
def updateOneUpsert (customer_id : ℕ) (pref : UserPreferences) :
    List PrefDoc → List PrefDoc
  | [] => [{ customer_id := customer_id, preferences := pref }]
  | d :: t =>
    if d.customer_id == customer_id then
      { customer_id := d.customer_id, preferences := pref } :: t
    else d :: updateOneUpsert customer_id pref t

/-- Embedding of the tool `save_customer_preferences_tool`: the source
hardcodes `customer_id = 1` (its comment says to replace it with a
session/user identifier later), so the upsert always targets customer 1
regardless of whose preferences are being saved. -/
def save_customer_preferences (reachable : Bool) (user_preference : UserPreferences)
    (store : List PrefDoc) : PrefSaveResult × List PrefDoc :=
  if !reachable then
    ({ status := "error", message := "store unreachable" }, store)
  else
    ({ status := "success", message := "Preferences saved for customer 1" },
     updateOneUpsert 1 user_preference store)

/-- The specification's `savePreferences(userId, preferences)` contract
realized by the source tool: the tool accepts no user identifier, so the
user argument is ignored and the call is exactly
`save_customer_preferences` on a reachable store. -/
def save_preferences_for_user (user_id : ℕ) (pref : UserPreferences)
    (store : List PrefDoc) : PrefSaveResult × List PrefDoc :=
  save_customer_preferences true pref store

/-- Mongo `find_one({"customer_id": cid})` projected to the stored
payload. -/
def find_preferences (customer_id : ℕ) (store : List PrefDoc) : Option UserPreferences :=
  (store.find? (fun d => d.customer_id == customer_id)).map PrefDoc.preferences

/-- C6: the (property, user) uniqueness invariant of the favorites store:
starting from a store with at most one record per pair and none for the
given pair, saving twice stores exactly one record for the pair, the
second call performs no write (the store is returned unchanged) and
reports the warning status, and the at-most-one invariant holds for every
pair afterwards. -/
theorem save_to_favorites_unique (property_id user_id : String) (notes : Option String)
    (priority : String) (t1 t2 : ℕ) (store : List FavoriteProperty)
    (hinv : ∀ p u, countFav p u store ≤ 1)
    (h0 : countFav property_id user_id store = 0) :
    let s1 := (save_to_favorites true store property_id user_id notes priority t1).2
    (save_to_favorites true store property_id user_id notes priority t1).1.status =
      "success" ∧
    countFav property_id user_id s1 = 1 ∧
    (save_to_favorites true s1 property_id user_id notes priority t2).1.status =
      "warning" ∧
    (save_to_favorites true s1 property_id user_id notes priority t2).2 = s1 ∧
    (∀ p u, countFav p u s1 ≤ 1) := by
  intro s1
  have hnone : store.find? (favMatches property_id user_id) = none := by
    rw [List.find?_eq_none]
    intro x hx
    have := List.countP_eq_zero.mp h0 x hx
    simpa using this
  have hfav : favMatches property_id user_id
      { property_id := property_id, user_id := user_id, saved_at := t1,
        notes := notes, priority := priority } = true := by
    simp [favMatches]
  have hs1 : s1 = store ++
      [{ property_id := property_id, user_id := user_id, saved_at := t1,
         notes := notes, priority := priority }] := by
    show (save_to_favorites true store property_id user_id notes priority t1).2 = _
    simp [save_to_favorites, hnone]
  have hcount1 : countFav property_id user_id s1 = 1 := by
    rw [hs1]
    unfold countFav
    rw [List.countP_append]
    unfold countFav at h0
    simp [h0, List.countP_cons, hfav]
  have hsome : ∃ r, s1.find? (favMatches property_id user_id) = some r := by
    cases hf : s1.find? (favMatches property_id user_id) with
    | some r => exact ⟨r, rfl⟩
    | none =>
      exfalso
      have := List.find?_eq_none.mp hf
        ({ property_id := property_id, user_id := user_id, saved_at := t1,
           notes := notes, priority := priority }) (by rw [hs1]; simp)
      exact this hfav
  obtain ⟨r, hr⟩ := hsome
  refine ⟨by simp [save_to_favorites, hnone], hcount1, ?_, ?_, ?_⟩
  · simp [save_to_favorites, hr]
  · simp [save_to_favorites, hr]
  · intro p u
    rw [hs1]
    unfold countFav
    rw [List.countP_append]
    by_cases hpu : p = property_id ∧ u = user_id
    · obtain ⟨rfl, rfl⟩ := hpu
      unfold countFav at h0
      simp [h0, List.countP_cons, hfav]
    · have hne : favMatches p u
          { property_id := property_id, user_id := user_id, saved_at := t1,
            notes := notes, priority := priority } = false := by
        simp only [favMatches]
        by_cases hp : property_id = p
        · have hu : user_id ≠ u := by
            intro hu
            exact hpu ⟨hp.symm, hu.symm⟩
          simp [hp, hu]
        · simp [hp]
      have := hinv p u
      unfold countFav at this
      simp [List.countP_cons, hne]
      omega

/-- Witness for `save_to_favorites_unique` on the empty store. -/
theorem save_to_favorites_unique_witness :
    let s1 := (save_to_favorites true [] "prop_001" "1" none "medium" 0).2
    (save_to_favorites true [] "prop_001" "1" none "medium" 0).1.status = "success" ∧
    countFav "prop_001" "1" s1 = 1 ∧
    (save_to_favorites true s1 "prop_001" "1" none "medium" 1).1.status = "warning" ∧
    (save_to_favorites true s1 "prop_001" "1" none "medium" 1).2 = s1 ∧
    (∀ p u, countFav p u s1 ≤ 1) :=
  save_to_favorites_unique "prop_001" "1" none "medium" 0 1 []
    (fun _ _ => Nat.zero_le 1) rfl

/-- C8: favorites and preferences operations report outcomes in the
returned status value: removing a favorite that is not stored yields the
warning status and no store change; saving a duplicate yields the warning
status and no store change; and with the store unreachable, save, remove,
list and preferences-save all yield the error status in the result value
(the source's `except` branches) with the store untouched. -/
theorem favorites_status_reporting :
    (∀ (store : List FavoriteProperty) (pid uid : String),
      store.any (favMatches pid uid) = false →
      (remove_from_favorites true store pid uid).1.status = "warning" ∧
      (remove_from_favorites true store pid uid).2 = store) ∧
    (∀ (store : List FavoriteProperty) (pid uid : String) (notes : Option String)
        (priority : String) (now : ℕ),
      store.any (favMatches pid uid) = true →
      (save_to_favorites true store pid uid notes priority now).1.status = "warning" ∧
      (save_to_favorites true store pid uid notes priority now).2 = store) ∧
    (∀ (store : List FavoriteProperty) (pid uid : String) (notes : Option String)
        (priority : String) (now : ℕ),
      (save_to_favorites false store pid uid notes priority now).1.status = "error" ∧
      (save_to_favorites false store pid uid notes priority now).2 = store) ∧
    (∀ (store : List FavoriteProperty) (pid uid : String),
      (remove_from_favorites false store pid uid).1.status = "error" ∧
      (remove_from_favorites false store pid uid).2 = store) ∧
    (∀ (store : List FavoriteProperty) (uid : String),
      (get_favorites false store uid).status = "error") ∧
    (∀ (pref : UserPreferences) (store : List PrefDoc),
      (save_customer_preferences false pref store).1.status = "error" ∧
      (save_customer_preferences false pref store).2 = store) := by
  refine ⟨?_, ?_, ?_, ?_, ?_, ?_⟩
  · intro store pid uid h
    constructor <;> simp [remove_from_favorites, h]
  · intro store pid uid notes priority now h
    obtain ⟨x, hx, hpx⟩ := List.any_eq_true.mp h
    have hsome : ∃ r, store.find? (favMatches pid uid) = some r := by
      cases hf : store.find? (favMatches pid uid) with
      | some r => exact ⟨r, rfl⟩
      | none => exact absurd hpx (List.find?_eq_none.mp hf x hx)
    obtain ⟨r, hr⟩ := hsome
    constructor <;> simp [save_to_favorites, hr]
  · intro store pid uid notes priority now
    exact ⟨rfl, rfl⟩
  · intro store pid uid
    exact ⟨rfl, rfl⟩
  · intro store uid
    rfl
  · intro pref store
    exact ⟨rfl, rfl⟩

/-- Witness for `favorites_status_reporting`: removal from the empty
store warns, saving a stored duplicate warns, and each unreachable-store
operation reports the error status. -/
theorem favorites_status_reporting_witness :
    ((remove_from_favorites true [] "prop_001" "1").1.status = "warning" ∧
     (remove_from_favorites true [] "prop_001" "1").2 = []) ∧
    ((save_to_favorites true [⟨"prop_001", "1", 0, none, "medium"⟩]
        "prop_001" "1" none "medium" 1).1.status = "warning") ∧
    ((save_to_favorites false [] "prop_001" "1" none "medium" 0).1.status = "error") ∧
    ((remove_from_favorites false [] "prop_001" "1").1.status = "error") ∧
    ((get_favorites false [] "1").status = "error") ∧
    ((save_customer_preferences false
        ⟨"apartment", ["Lahore"], ⟨1, 2⟩, none, none, none⟩ []).1.status = "error") :=
  ⟨favorites_status_reporting.1 [] "prop_001" "1" rfl,
   (favorites_status_reporting.2.1 [⟨"prop_001", "1", 0, none, "medium"⟩]
      "prop_001" "1" none "medium" 1 (by decide)).1,
   (favorites_status_reporting.2.2.1 [] "prop_001" "1" none "medium" 0).1,
   (favorites_status_reporting.2.2.2.1 [] "prop_001" "1").1,
   favorites_status_reporting.2.2.2.2.1 [] "1",
   (favorites_status_reporting.2.2.2.2.2
      ⟨"apartment", ["Lahore"], ⟨1, 2⟩, none, none, none⟩ []).1⟩

/-- The upsert stores the new payload under the targeted customer key:
the first matching document is replaced wholesale (or a new document
appended when none matches), so a subsequent lookup of that key returns
exactly the new payload. -/
lemma find_preferences_updateOneUpsert (cid : ℕ) (pref : UserPreferences)
    (store : List PrefDoc) :
    find_preferences cid (updateOneUpsert cid pref store) = some pref := by
  induction store with
  | nil => simp [find_preferences, updateOneUpsert]
  | cons d t ih =>
    by_cases h : d.customer_id == cid
    · simp [updateOneUpsert, h, find_preferences]
    · simp only [updateOneUpsert, h, if_false, Bool.false_eq_true]
      unfold find_preferences at ih ⊢
      simp only [List.find?_cons, h]
      exact ih

/-- Documents of other customers survive the upsert. -/
lemma mem_updateOneUpsert_of_ne (cid : ℕ) (pref : UserPreferences)
    {store : List PrefDoc} {d : PrefDoc} (hd : d ∈ store)
    (hne : d.customer_id ≠ cid) : d ∈ updateOneUpsert cid pref store := by
  induction store with
  | nil => cases hd
  | cons e t ih =>
    rcases List.mem_cons.mp hd with rfl | hdt
    · have h : (d.customer_id == cid) = false := by
        simp [hne]
      simp [updateOneUpsert, h]
    · by_cases h : (e.customer_id == cid) = true
      · simp only [updateOneUpsert]
        rw [if_pos h]
        exact List.mem_cons_of_mem _ hdt
      · simp only [updateOneUpsert]
        rw [if_neg h]
        exact List.mem_cons_of_mem _ (ih hdt)

/-- C7 (amended): the preferences upsert is last-write-wins at the fixed
demo customer key 1 that the source hardcodes: saving twice leaves
exactly the second payload retrievable at key 1 (whole-record replacement,
no merge), the save reports success, and documents stored under other
customer identifiers are unaffected.  The claim's "keyed by the user
identifier" fails because the tool accepts no user identifier, as the
counterexample `save_preferences_not_keyed_by_user` shows. -/
theorem save_customer_preferences_upsert (p1 p2 : UserPreferences)
    (store : List PrefDoc) :
    let s1 := (save_customer_preferences true p1 store).2
    let s2 := (save_customer_preferences true p2 s1).2
    (save_customer_preferences true p2 s1).1.status = "success" ∧
    find_preferences 1 s2 = some p2 ∧
    ∀ d ∈ store, d.customer_id ≠ 1 → d ∈ s2 := by
  intro s1 s2
  refine ⟨rfl, ?_, ?_⟩
  · exact find_preferences_updateOneUpsert 1 p2 _
  · intro d hd hne
    exact mem_updateOneUpsert_of_ne 1 p2
      (mem_updateOneUpsert_of_ne 1 p1 hd hne) hne

/-- Witness for `save_customer_preferences_upsert` with two distinct
payloads over a store holding a document of customer 2. -/
theorem save_customer_preferences_upsert_witness :
    let s1 := (save_customer_preferences true
      ⟨"apartment", ["Lahore"], ⟨1, 2⟩, none, none, none⟩
      [⟨2, ⟨"house", ["Karachi"], ⟨2, 3⟩, none, none, none⟩⟩]).2
    let s2 := (save_customer_preferences true
      ⟨"house", ["Islamabad"], ⟨3, 4⟩, none, none, none⟩ s1).2
    (save_customer_preferences true
      ⟨"house", ["Islamabad"], ⟨3, 4⟩, none, none, none⟩ s1).1.status = "success" ∧
    find_preferences 1 s2 = some ⟨"house", ["Islamabad"], ⟨3, 4⟩, none, none, none⟩ ∧
    ∀ d ∈ [(⟨2, ⟨"house", ["Karachi"], ⟨2, 3⟩, none, none, none⟩⟩ : PrefDoc)],
      d.customer_id ≠ 1 → d ∈ s2 :=
  save_customer_preferences_upsert
    ⟨"apartment", ["Lahore"], ⟨1, 2⟩, none, none, none⟩
    ⟨"house", ["Islamabad"], ⟨3, 4⟩, none, none, none⟩
    [⟨2, ⟨"house", ["Karachi"], ⟨2, 3⟩, none, none, none⟩⟩]

/-- C7 counterexample: the source tool takes no user identifier and always
upserts customer 1, so "saving preferences for user 2" (calling the tool
while user 2 is the active user) stores nothing retrievable for customer
2 and overwrites customer 1's record: after user 1 saves payload A and
user 2 saves payload B, lookup of customer 2 yields nothing and lookup of
customer 1 yields B, refuting both "keyed by the user identifier" and
"records of other users are unaffected". -/
theorem save_preferences_not_keyed_by_user :
    let A : UserPreferences := ⟨"apartment", ["Lahore"], ⟨1, 2⟩, none, none, none⟩
    let B : UserPreferences := ⟨"house", ["Karachi"], ⟨2, 3⟩, none, none, none⟩
    let s1 := (save_preferences_for_user 1 A []).2
    let s2 := (save_preferences_for_user 2 B s1).2
    find_preferences 1 s1 = some A ∧
    find_preferences 2 s2 = none ∧
    find_preferences 1 s2 = some B := by
  exact ⟨rfl, rfl, rfl⟩

/-! ## Chat node message preparation
Source: src/core/nodes/chat.py -/

/-- The role of one conversation message (langchain message classes). -/
inductive MessageKind where
  | system
  | human
  | ai
  | tool
deriving DecidableEq, Repr

/-- One conversation message: its role and content. -/
structure BaseMessage where
  kind : MessageKind
  content : String
deriving DecidableEq, Repr

/-- The `isinstance(msg, SystemMessage)` check. -/
def isSystemMessage (m : BaseMessage) : Bool := m.kind == MessageKind.system

/-- Number of system messages in a history. -/
def countSystem (messages : List BaseMessage) : ℕ := messages.countP isSystemMessage

/-- Embedding of `_prepare_messages`: copy the state's messages, and when
no system message is present prepend one.  The source builds the system
prompt text from configuration values; the claim is independent of that
text, so the prompt content is a parameter. -/
def prepare_messages (system_prompt : String) (messages : List BaseMessage) :
    List BaseMessage :=
  if messages.any isSystemMessage then messages
  else { kind := MessageKind.system, content := system_prompt } :: messages

/-- C9: `_prepare_messages` prepends the system instruction exactly once:
when a system message is already present the history is passed through
unchanged; when none is present exactly one system message is prepended at
the front; and the number of system messages in the prepared history is
the maximum of the incoming count and one, so preparation never adds a
duplicate system instruction. -/
theorem prepare_messages_prepends_once (system_prompt : String)
    (messages : List BaseMessage) :
    (messages.any isSystemMessage = true →
      prepare_messages system_prompt messages = messages) ∧
    (messages.any isSystemMessage = false →
      prepare_messages system_prompt messages =
        { kind := MessageKind.system, content := system_prompt } :: messages) ∧
    countSystem (prepare_messages system_prompt messages) =
      max (countSystem messages) 1 := by
  by_cases h : messages.any isSystemMessage
  · refine ⟨fun _ => by simp [prepare_messages, h], fun hf => absurd h (by simp [hf]), ?_⟩
    obtain ⟨x, hx, hpx⟩ := List.any_eq_true.mp h
    have hpos : 0 < countSystem messages := by
      unfold countSystem
      exact List.countP_pos_iff.mpr ⟨x, hx, hpx⟩
    simp [prepare_messages, h]
    omega
  · have h' : messages.any isSystemMessage = false := by
      simpa using h
    refine ⟨fun ht => absurd ht (by simp [h']), fun _ => by simp [prepare_messages, h'], ?_⟩
    have hzero : countSystem messages = 0 := by
      unfold countSystem
      rw [List.countP_eq_zero]
      intro a ha
      have := List.any_eq_false.mp h' a ha
      simpa using this
    simp only [prepare_messages, h', Bool.false_eq_true, if_false]
    unfold countSystem at hzero ⊢
    rw [List.countP_cons]
    simp [isSystemMessage, hzero]

/-- Witness for `prepare_messages_prepends_once`: a history that already
holds a system message passes through unchanged, and a history without
one gets exactly one system message prepended. -/
theorem prepare_messages_prepends_once_witness :
    prepare_messages "p" [⟨MessageKind.system, "s"⟩] = [⟨MessageKind.system, "s"⟩] ∧
    prepare_messages "p" [⟨MessageKind.human, "u"⟩] =
      ⟨MessageKind.system, "p"⟩ :: [⟨MessageKind.human, "u"⟩] ∧
    countSystem (prepare_messages "p" [⟨MessageKind.human, "u"⟩]) = 1 :=
  ⟨(prepare_messages_prepends_once "p" [⟨MessageKind.system, "s"⟩]).1 (by decide),
   (prepare_messages_prepends_once "p" [⟨MessageKind.human, "u"⟩]).2.1 (by decide),
   (prepare_messages_prepends_once "p" [⟨MessageKind.human, "u"⟩]).2.2⟩

/-! ## Property presentation tool
Source: src/core/tools/property_presentation_tool.py.  The
`presentation_text` field of the source's result is locale-formatted
string rendering of the summaries with no further logic; the embedded
result carries the summaries and their count. -/

/-- Summary of a property for presentation (`PropertySummary`). -/
structure PropertySummary where
  id : String
  title : String
  price_crores : ℚ
  location : String
  bedrooms : ℤ
  bathrooms : ℤ
  size_sqft : ℤ
  key_features : List String
  price_per_sqft : ℚ
  pros : List String
  cons : List String
deriving DecidableEq, Repr

/-- Result of presentation formatting (`PropertyPresentationResult`)
without the derived text. -/
structure PropertyPresentationResult where
  summaries : List PropertySummary
  total_properties : ℕ
deriving DecidableEq, Repr

/-- Embedding of `_calculate_price_per_sqft`: price per square foot in
rupees, 0.0 for a zero-size property instead of dividing by zero. -/
def calculate_price_per_sqft (price_crores : ℚ) (size_sqft : ℤ) : ℚ :=
  if size_sqft == 0 then 0 else (price_crores * 10000000) / (size_sqft : ℚ)

/-- Embedding of `_generate_property_pros_cons`, appending the entries in
source order; the `elif` chains of the price, size and maintenance
analyses are kept as nested conditionals, and Python float truthiness
makes a maintenance fee of 0.0 skip both maintenance branches. -/
def generate_property_pros_cons (property : Property) : List String × List String :=
  let pps := calculate_price_per_sqft property.price_crores property.features.size_sqft
  let pros :=
    (if property.features.parking then ["✅ Parking available"] else []) ++
    (if property.features.balcony then ["✅ Balcony included"] else []) ++
    (if property.features.garden then ["✅ Private garden"] else []) ++
    (if property.features.security then ["✅ Security system"] else []) ++
    (if property.features.gym then ["✅ Gym facility"] else []) ++
    (if property.features.pool then ["✅ Swimming pool"] else []) ++
    (if property.features.elevator then ["✅ Elevator access"] else []) ++
    (if pps < 8000 then ["✅ Good value for money"] else []) ++
    (if property.features.size_sqft > 2000 then ["✅ Spacious living area"] else []) ++
    (if containsSub property.location.area.toList ("DHA".toList) then
      ["✅ Prime DHA location"]
     else if containsSub property.location.area.toList ("Phase".toList) then
      ["✅ Well-planned area"]
     else []) ++
    (match property.maintenance_fee with
     | some m => if m ≠ 0 ∧ m < 10000 then ["✅ Low maintenance fees"] else []
     | none => [])
  let cons :=
    (if property.features.parking then [] else ["❌ No parking"]) ++
    (if pps < 8000 then []
     else if pps > 15000 then ["⚠️ Higher price per sqft"] else []) ++
    (if property.features.size_sqft > 2000 then []
     else if property.features.size_sqft < 1000 then ["⚠️ Compact living space"]
     else []) ++
    (match property.maintenance_fee with
     | some m => if m ≠ 0 ∧ m > 20000 then ["⚠️ High maintenance fees"] else []
     | none => [])
  (pros, cons)

/-- Embedding of `_format_property_summary`. -/
def format_property_summary (property : Property) : PropertySummary :=
  let price_per_sqft :=
    calculate_price_per_sqft property.price_crores property.features.size_sqft
  let pc := generate_property_pros_cons property
  let key_features :=
    (if property.features.parking then ["Parking"] else []) ++
    (if property.features.balcony then ["Balcony"] else []) ++
    (if property.features.garden then ["Garden"] else []) ++
    (if property.features.security then ["Security"] else []) ++
    (if property.features.gym then ["Gym"] else []) ++
    (if property.features.pool then ["Pool"] else []) ++
    (if property.features.elevator then ["Elevator"] else [])
  { id := property.id,
    title := property.title,
    price_crores := property.price_crores,
    location := property.location.area ++ ", " ++ property.location.city,
    bedrooms := property.features.bedrooms,
    bathrooms := property.features.bathrooms,
    size_sqft := property.features.size_sqft,
    key_features := key_features,
    price_per_sqft := price_per_sqft,
    pros := pc.1,
    cons := pc.2 }

/-- Embedding of the tool `present_properties`: one summary per returned
property, with the summary count. -/
def present_properties (search_result : PropertySearchResult) :
    PropertyPresentationResult :=
  let summaries := search_result.properties.map format_property_summary
  { summaries := summaries, total_properties := summaries.length }

/-- C10: presentation is total on zero-size properties: every property of
the search result is summarized, and the price-per-square-foot field of a
zero-size property's summary is 0 (the source's guard, instead of a
division by zero), while for nonzero size it satisfies the exact division
equation price-per-sqft times size = price in crores times 10^7. -/
theorem present_properties_total_on_zero_size (search_result : PropertySearchResult)
    (p : Property) (hp : p ∈ search_result.properties) :
    (present_properties search_result).summaries.length =
      search_result.properties.length ∧
    format_property_summary p ∈ (present_properties search_result).summaries ∧
    (p.features.size_sqft = 0 → (format_property_summary p).price_per_sqft = 0) ∧
    (p.features.size_sqft ≠ 0 →
      (format_property_summary p).price_per_sqft * (p.features.size_sqft : ℚ) =
        p.price_crores * 10000000) := by
  refine ⟨by simp [present_properties], List.mem_map_of_mem _ hp, ?_, ?_⟩
  · intro h
    show calculate_price_per_sqft p.price_crores p.features.size_sqft = 0
    simp [calculate_price_per_sqft, h]
  · intro h
    have hcast : (p.features.size_sqft : ℚ) ≠ 0 := by
      exact_mod_cast h
    have heq : (format_property_summary p).price_per_sqft =
        (p.price_crores * 10000000) / (p.features.size_sqft : ℚ) := by
      show calculate_price_per_sqft p.price_crores p.features.size_sqft = _
      simp [calculate_price_per_sqft, h]
    rw [heq, div_mul_cancel₀ _ hcast]

/-- Witness for `present_properties_total_on_zero_size` on a search result
holding one zero-size property. -/
theorem present_properties_total_on_zero_size_witness :
    let p : Property :=
      ⟨"prop_zero", "Zero-size test listing", "A listing with unknown size", 1,
       "apartment", ⟨"Karachi", "Clifton", "Block 2", none⟩,
       ⟨1, 1, 0, false, true, false, true, false, false, false⟩, [], none, none, true⟩
    let sr : PropertySearchResult :=
      ⟨[p], 1, ⟨none, none, none, none, none, none, none, none, 10⟩⟩
    (present_properties sr).summaries.length = sr.properties.length ∧
    format_property_summary p ∈ (present_properties sr).summaries ∧
    (p.features.size_sqft = 0 → (format_property_summary p).price_per_sqft = 0) ∧
    (p.features.size_sqft ≠ 0 →
      (format_property_summary p).price_per_sqft * (p.features.size_sqft : ℚ) =
        p.price_crores * 10000000) :=
  present_properties_total_on_zero_size _ _ (List.mem_singleton_self _)
